import Mathlib

/-!
Shallow embedding of the `ears` audio library (jeremyletang/ears) for
specification checking.

The embedding translates the Rust sources into Lean:

* `src/openal.rs`  — OpenAL constant values, `al::get_channels_format`;
* `src/internal.rs` — `OpenAlData::new`, `OpenAlData::check_al_context`,
  `OpenAlData::is_input_context_init`, `OpenAlData::check_al_input_context`,
  and the `check_openal_context!` guard macro;
* `src/ears/music.rs` — `Music::new`, `Music::play`, the body of the
  background refill loop inside `Music::process_music`, and the public
  getters of the `AudioController` impl;
* `src/sound.rs` — `Sound::get_state`, `Sound::is_looping`;
* `src/ears/sound_data.rs` — `SoundData::new`;
* `src/recorder.rs` — `Recorder::save_to_file`.

Calls into the OpenAL C library and into libsndfile are the boundary of
the embedding: replies from the backend (`alGetSourcei`, `alcOpenDevice`
succeeding or not, …) are explicit parameters, and commands issued to the
backend are recorded either as event traces (`ALEvent`) or as resource
counters (`BackendRes`), so theorems can speak about what the code asks
the backend to do for each possible backend reply.
-/

namespace Ears

/-! ## OpenAL constants (src/openal.rs, mod ffi) -/

def AL_INITIAL : Int := 0x1011
def AL_PLAYING : Int := 0x1012
def AL_PAUSED : Int := 0x1013
def AL_STOPPED : Int := 0x1014

/-- `ALC_TRUE : ALCboolean = 1` where `ALCboolean = c_char` (an i8). -/
def ALC_TRUE : Int := 1

/-- `ALC_FALSE : ALCboolean = 0`. -/
def ALC_FALSE : Int := 0

def AL_FORMAT_MONO16 : Int := 0x1101
def AL_FORMAT_STEREO16 : Int := 0x1103
def AL_FORMAT_QUAD16 : Int := 0x1205
def AL_FORMAT_51CHN16 : Int := 0x120B
def AL_FORMAT_61CHN16 : Int := 0x120E
def AL_FORMAT_71CHN16 : Int := 0x1211

/-! ## libsndfile format constants (src/sndfile/ffi.rs) -/

/-- `SF_FORMAT_WAV = 0x010000` — Microsoft WAV container.  The sndfile
format codes are non-negative bit flags, kept as `Nat`. -/
def FormatWav : Nat := 0x010000

/-- `SF_FORMAT_PCM_16 = 0x0002` — signed 16 bit data. -/
def FormatPcm16 : Nat := 0x0002

/-! ## `al::get_channels_format` (src/openal.rs lines 250-260) -/

/-- Translation of `al::get_channels_format(channels: i32) -> Option<i32>`. -/
def get_channels_format (channels : Int) : Option Int :=
  if channels = 1 then some AL_FORMAT_MONO16
  else if channels = 2 then some AL_FORMAT_STEREO16
  else if channels = 4 then some AL_FORMAT_QUAD16
  else if channels = 5 then some AL_FORMAT_51CHN16
  else if channels = 6 then some AL_FORMAT_61CHN16
  else if channels = 7 then some AL_FORMAT_71CHN16
  else none

/-! ## Public playback state (src/states.rs) -/

inductive State where
  | Initial
  | Playing
  | Paused
  | Stopped
deriving DecidableEq, Repr

/-! ## Mapping backend replies to public results

`Music::get_state` / `Sound::get_state` match the raw `i32` reply of
`alGetSourcei(AL_SOURCE_STATE)` against the four state constants, with a
final arm `_ => unreachable!()`.  The boolean queries (`is_looping`,
`is_relative`) first cast the `i32` reply to `i8` (`boolean as i8`, a
wrapping truncation) and match against `ALC_TRUE` / `ALC_FALSE`, again
with `_ => unreachable!()`.  `none` models reaching `unreachable!()`
(a panic); `some` is a normally returned value. -/

/-- Rust `x as i8` on an `i32`: wrapping truncation to the range [-128, 127]. -/
def i8_of_i32 (x : Int) : Int :=
  (x + 128) % 256 - 128

/-- The `match state { ... _ => unreachable!() }` of `Music::get_state`
(src/ears/music.rs lines 272-278) and `Sound::get_state`
(src/sound.rs lines 312-318). -/
def state_of_al (state : Int) : Option State :=
  if state = AL_INITIAL then some State.Initial
  else if state = AL_PLAYING then some State.Playing
  else if state = AL_PAUSED then some State.Paused
  else if state = AL_STOPPED then some State.Stopped
  else none

/-- The `match boolean as i8 { ALC_TRUE => true, ALC_FALSE => false,
_ => unreachable!() }` of `Sound::is_looping` (src/sound.rs lines 445-449),
`Music::is_looping` and `Music::is_relative` (src/ears/music.rs). -/
def bool_of_al (boolean : Int) : Option Bool :=
  if i8_of_i32 boolean = ALC_TRUE then some true
  else if i8_of_i32 boolean = ALC_FALSE then some false
  else none

/-! ## Backend event traces

Each command the code issues to OpenAL (or to libsndfile's seek/read on
the decode source) while playing is recorded as one event.  Backend
replies (source state, processed-buffer count, the id handed back by
`alSourceUnqueueBuffers`) are parameters of the translated functions. -/

inductive ALEvent where
  /-- `sleep(ms)` — a delay of `ms` milliseconds. -/
  | sleepMs (ms : Nat)
  /-- `alGetSourcei(source, AL_BUFFERS_PROCESSED, &mut i)`. -/
  | getProcessed
  /-- `alGetState(source)` / `alGetSourcei(source, AL_SOURCE_STATE, ..)`. -/
  | getState
  /-- `alSourceUnqueueBuffers(source, n, &mut buf)`; `buf` is the id the
  backend hands back. -/
  | unqueueBuffers (n : Nat) (buf : Nat)
  /-- `file.read_i16(samples, maxItems)` — pull the next chunk from the
  decode source. -/
  | readChunk (maxItems : Int)
  /-- `alBufferData(buf, format, ptr, len, samplerate)` — upload the chunk
  just read into buffer `buf`. -/
  | bufferData (buf : Nat)
  /-- `alSourceQueueBuffers(source, n, &buf)`; `buf` is the first queued id. -/
  | queueBuffers (n : Nat) (buf : Nat)
  /-- `alSourcePlay(source)`. -/
  | sourcePlay
  /-- `alSourcePause(source)`. -/
  | sourcePause
  /-- `alSourceStop(source)`. -/
  | sourceStop
  /-- `file.seek(frame, SeekSet)` on the decode source. -/
  | seek (frame : Int)
  /-- `alSourcei(source, AL_BUFFER, 0)` — detach all buffers from the voice. -/
  | detachBuffers
  /-- `do spawn { .. }` — launch the background refill loop. -/
  | spawnRefillLoop
deriving DecidableEq, Repr

/-- Total number of buffers unqueued by `alSourceUnqueueBuffers` calls in a
trace. -/
def buffersUnqueued (ops : List ALEvent) : Nat :=
  (ops.map fun o => match o with
    | ALEvent.unqueueBuffers n _ => n
    | _ => 0).sum

/-- Total number of buffers queued by `alSourceQueueBuffers` calls in a
trace. -/
def buffersQueued (ops : List ALEvent) : Nat :=
  (ops.map fun o => match o with
    | ALEvent.queueBuffers n _ => n
    | _ => 0).sum

/-- Number of decode-source reads (`read_i16`) in a trace. -/
def chunkReads (ops : List ALEvent) : Nat :=
  ops.countP fun o => match o with
    | ALEvent.readChunk _ => true
    | _ => false

/-- Number of `alSourcePlay` calls in a trace. -/
def sourcePlays (ops : List ALEvent) : Nat :=
  ops.countP fun o => match o with
    | ALEvent.sourcePlay => true
    | _ => false

/-! ## The background refill loop (`Music::process_music`, src/ears/music.rs)

The spawned loop body (lines 167-186) is

```
while status != ffi::AL_STOPPED {
    sleep(50);
    if status == ffi::AL_PLAYING {
        al::alGetSourcei(al_source, ffi::AL_BUFFERS_PROCESSED, &mut i);
        if i != 0 {
            samples.clear();
            al::alSourceUnqueueBuffers(al_source, 1, &mut buf);
            read = file.read_i16(samples, sample_t_r as i64) * 2;
            al::alBufferData(buf, sample_format, .., read as i32, sample_rate);
            al::alSourceQueueBuffers(al_source, 1, &buf);
        }
    }
    status = al::alGetState(al_source);
}
al::alSourcei(al_source, ffi::AL_BUFFER, 0);
```

One iteration of the `while` body is a tick.  Its inputs are the `status`
value held from the previous iteration, the backend's reply `i` to the
`AL_BUFFERS_PROCESSED` query, and the buffer id `buf` the backend hands
back on unqueue; `sample_t_r` is `self.sample_to_read` (50000 in
`Music::new`). -/

/-- One tick of the refill loop: the events issued by one iteration of the
`while` body of `Music::process_music`, given the current `status`, the
processed-count reply `i` and the unqueued-buffer-id reply `buf`. -/
def process_music_tick (status : Int) (i : Int) (buf : Nat)
    (sample_t_r : Int) : List ALEvent :=
  [ALEvent.sleepMs 50] ++
  (if status = AL_PLAYING then
    [ALEvent.getProcessed] ++
    (if i ≠ 0 then
      [ALEvent.unqueueBuffers 1 buf,
       ALEvent.readChunk sample_t_r,
       ALEvent.bufferData buf,
       ALEvent.queueBuffers 1 buf]
    else [])
  else []) ++
  [ALEvent.getState]

/-- The whole refill loop, driven by a finite stream of backend replies:
each element of `replies` is `(i, buf, nextStatus)` — the processed-count
reply, the unqueue-id reply and the status read back at the end of the
tick.  An exhausted stream truncates the (potentially unbounded) trace. -/
def process_music_loop (status : Int) (sample_t_r : Int) :
    List (Int × Nat × Int) → List ALEvent
  | [] => if status = AL_STOPPED then [ALEvent.detachBuffers] else []
  | (i, buf, nextStatus) :: rest =>
    if status = AL_STOPPED then [ALEvent.detachBuffers]
    else
      process_music_tick status i buf sample_t_r ++
      process_music_loop nextStatus sample_t_r rest

/-! ## `Music::play` (src/ears/music.rs lines 211-227) and the synchronous
part of `Music::process_music` (lines 128-152)

`play` first runs the `check_openal_context!` guard, then matches
`self.get_state()` (one `alGetState`): in `Paused` it calls
`alSourcePlay` and returns; otherwise it calls `self.is_playing()` (a
second `alGetState`), on `true` stops the voice and sleeps 50 ms, then
seeks the decode source to frame 0 and calls `process_music`, which
synchronously fills the two buffers created in `Music::new`, queues both,
starts the voice and spawns the refill loop.  `b0`, `b1` are the ids in
`self.al_buffers`; `stReply` is the backend's source-state reply (the
same voice state is read by both `alGetState` calls).  A `none` result
models the `unreachable!()` panic inside `get_state` on a reply outside
the four state constants. -/

/-- The synchronous prefix of `Music::process_music`: fill both buffers,
queue them, start the voice, spawn the refill loop. -/
def process_music_sync (b0 b1 : Nat) (sample_t_r : Int) : List ALEvent :=
  [ALEvent.readChunk sample_t_r, ALEvent.bufferData b0,
   ALEvent.readChunk sample_t_r, ALEvent.bufferData b1,
   ALEvent.queueBuffers 2 b0,
   ALEvent.sourcePlay,
   ALEvent.spawnRefillLoop]

/-- `Music::play`, as the trace of backend events it issues.  `ctxOk` is
whether `check_openal_context!` succeeds. -/
def Music.play (ctxOk : Bool) (stReply : Int) (b0 b1 : Nat)
    (sample_t_r : Int) : Option (List ALEvent) :=
  if ctxOk = false then some []
  else
    match state_of_al stReply with
    | none => none
    | some State.Paused => some [ALEvent.getState, ALEvent.sourcePlay]
    | some s =>
      some ([ALEvent.getState, ALEvent.getState] ++
        (if s = State.Playing then
          [ALEvent.sourceStop, ALEvent.sleepMs 50]
        else []) ++
        [ALEvent.seek 0] ++
        process_music_sync b0 b1 sample_t_r)

/-- `Music::pause` (src/ears/music.rs lines 232-236): guard, then
`alSourcePause`. -/
def Music.pause (ctxOk : Bool) : List ALEvent :=
  if ctxOk then [ALEvent.sourcePause] else []

/-- `Music::stop` (src/ears/music.rs lines 241-246): guard, then
`alSourceStop` and a 50 ms sleep. -/
def Music.stop (ctxOk : Bool) : List ALEvent :=
  if ctxOk then [ALEvent.sourceStop, ALEvent.sleepMs 50] else []

/-! ## Construction paths and backend resource accounting

`Music::new` (src/ears/music.rs lines 85-126) and `SoundData::new`
(src/ears/sound_data.rs lines 93-135) create backend objects
(`alGenSources` / `alGenBuffers`) and have early `return None` paths.
`BackendRes` counts what was generated and what was deleted by the time
the constructor returns, so leaks (generated but never deleted ids held
by nobody) are visible. -/

structure BackendRes where
  sourcesGenned : Nat
  buffersGenned : Nat
  sourcesDeleted : Nat
  buffersDeleted : Nat
deriving DecidableEq, Repr

/-- The empty resource ledger: nothing generated, nothing deleted. -/
def BackendRes.none : BackendRes := ⟨0, 0, 0, 0⟩

/-- Backend sources generated during a call and not deleted by its end.
When the call returns `None`, no object holds these ids, so they can
never be deleted: they are leaked. -/
def BackendRes.leakedSources (r : BackendRes) : Nat :=
  r.sourcesGenned - r.sourcesDeleted

/-- Backend buffers generated during a call and not deleted by its end. -/
def BackendRes.leakedBuffers (r : BackendRes) : Nat :=
  r.buffersGenned - r.buffersDeleted

/-- The fields of a constructed `Music` that the embedding tracks. -/
structure MusicObj where
  sample_to_read : Int
  sample_format : Int
deriving DecidableEq, Repr

/-- Translation of `Music::new` (src/ears/music.rs lines 85-126).

Inputs: `ctxOk` — `check_openal_context!(None)` succeeds; `fileOpens` —
`SndFile::new(path, Read)` succeeds; `channels` — `infos.channels` of the
opened file; `alError` — `al::openal_has_error()` reports an error code
after source/buffer creation.

The code generates 1 source and 2 buffers, then maps the channel count to
a format and then checks for a backend error; both failure arms are bare
`return None` with no `alDeleteSources` / `alDeleteBuffers`. -/
def Music.new (ctxOk fileOpens : Bool) (channels : Int) (alError : Bool) :
    Option MusicObj × BackendRes :=
  if ctxOk = false then (Option.none, BackendRes.none)
  else if fileOpens = false then (Option.none, BackendRes.none)
  else
    let res : BackendRes := ⟨1, 2, 0, 0⟩
    match get_channels_format channels with
    | Option.none => (Option.none, res)
    | some format =>
      if alError then (Option.none, res)
      else (some ⟨50000, format⟩, res)

/-- The fields of a constructed `SoundData` that the embedding tracks. -/
structure SoundDataObj where
  format : Int
deriving DecidableEq, Repr

/-- Translation of `SoundData::new` (src/ears/sound_data.rs lines 93-135).

The format is deduced from `infos.channels` by an inline match supporting
only 1 and 2 channels, *before* `alGenBuffers(1, ..)`; the
`openal_has_error()` check follows the buffer creation and upload. -/
def SoundData.new (fileOpens : Bool) (channels : Int) (alError : Bool) :
    Option SoundDataObj × BackendRes :=
  if fileOpens = false then (Option.none, BackendRes.none)
  else
    match (if channels = 1 then some AL_FORMAT_MONO16
           else if channels = 2 then some AL_FORMAT_STEREO16
           else Option.none) with
    | Option.none => (Option.none, BackendRes.none)
    | some format =>
      let res : BackendRes := ⟨0, 1, 0, 0⟩
      if alError then (Option.none, res)
      else (some ⟨format⟩, res)

/-! ## The OpenAL context singleton (src/internal.rs)

`OpenAlData` is stored in task-local data (`local_data_key!(al_context)`)
— one slot per logical scope (Rust task).  `alcGetCurrentContext` is
process-global.  `CtxWorld` carries the global current context, the
task-local slot of the calling scope, and counters of the devices opened
and contexts created so far; `CtxBackend` carries the backend's replies
(does `alcOpenDevice` / `alcCreateContext` / `alcMakeContextCurrent` /
the capture extension / `alcCaptureOpenDevice` succeed). -/

/-- The `OpenAlData` struct: context handle, device handle, optional
capture device handle (null pointers modelled as `Option`). -/
structure OpenAlDataS where
  al_context : Nat
  al_device : Nat
  al_capt_device : Option Nat
deriving DecidableEq, Repr

structure CtxBackend where
  deviceAvailable : Bool
  contextCreateOk : Bool
  makeCurrentOk : Bool
  captureExtPresent : Bool
  captureOpenOk : Bool
deriving DecidableEq, Repr

structure CtxWorld where
  /-- `alcGetCurrentContext()` — the process-globally current context. -/
  currentContext : Option Nat
  /-- The calling scope's task-local `al_context` slot. -/
  scopeData : Option OpenAlDataS
  /-- How many devices `alcOpenDevice` has opened so far. -/
  devicesOpened : Nat
  /-- How many contexts `alcCreateContext` has created so far. -/
  contextsCreated : Nat
deriving DecidableEq, Repr

/-- Translation of `OpenAlData::new` (src/internal.rs lines 54-74): open
the default device, create a context, make it current; each step can fail
with the corresponding error message. -/
def OpenAlData.new (b : CtxBackend) (w : CtxWorld) :
    Except String OpenAlDataS × CtxWorld :=
  if b.deviceAvailable = false then
    (Except.error "Internal error: cannot open the default device.", w)
  else
    let dev := w.devicesOpened + 1
    let w1 := { w with devicesOpened := dev }
    if b.contextCreateOk = false then
      (Except.error "Internal error: cannot create the OpenAL context.", w1)
    else
      let ctx := w1.contextsCreated + 1
      let w2 := { w1 with contextsCreated := ctx }
      if b.makeCurrentOk = false then
        (Except.error "Internal error: cannot make the OpenAL context current.", w2)
      else
        (Except.ok ⟨ctx, dev, Option.none⟩,
         { w2 with currentContext := some ctx })

/-- Translation of `OpenAlData::check_al_context` (src/internal.rs lines
87-102): if a context is already current globally, succeed; else if this
scope's slot is filled, succeed; else build a fresh `OpenAlData`, store it
in the scope's slot on success. -/
def check_al_context (b : CtxBackend) (w : CtxWorld) :
    Except String Unit × CtxWorld :=
  if w.currentContext.isSome then (Except.ok (), w)
  else
    match w.scopeData with
    | some _ => (Except.ok (), w)
    | Option.none =>
      match OpenAlData.new b w with
      | (Except.ok al_data, w1) =>
        (Except.ok (), { w1 with scopeData := some al_data })
      | (Except.error err, w1) => (Except.error err, w1)

/-- Translation of `OpenAlData::is_input_context_init` (src/internal.rs
lines 104-133).  The `Nat` in the `ok` result is the capture-device
handle wrapped into the returned `RecordContext`. -/
def is_input_context_init (b : CtxBackend) (w : CtxWorld) :
    Except String Nat × CtxWorld :=
  match w.scopeData with
  | Option.none =>
    (Except.error "Error: you must request the input context, in the task where you initialize ears.", w)
  | some ctxData =>
    match ctxData.al_capt_device with
    | some cap => (Except.ok cap, w)
    | Option.none =>
      if b.captureExtPresent = false then
        (Except.error "Error: no input device available on your system.", w)
      else if b.captureOpenOk = false then
        (Except.error "Internal error: cannot open the default capture device.", w)
      else
        let cap := ctxData.al_device
        (Except.ok cap,
         { w with scopeData := some { ctxData with al_capt_device := some cap } })

/-- Translation of `OpenAlData::check_al_input_context` (src/internal.rs
lines 146-155): if a context is current globally, go straight to
`is_input_context_init`; otherwise first run `check_al_context`. -/
def check_al_input_context (b : CtxBackend) (w : CtxWorld) :
    Except String Nat × CtxWorld :=
  if w.currentContext.isSome then is_input_context_init b w
  else
    match check_al_context b w with
    | (Except.ok _, w1) => is_input_context_init b w1
    | (Except.error err, w1) => (Except.error err, w1)

/-! ## Guarded public operations on a live `Music` (src/ears/music.rs)

Every public operation of the `AudioController` impl opens with
`check_openal_context!(default)` (src/internal.rs lines 170-177), which on
a failed `OpenAlData::check_al_context` prints the error and returns
`default`.  Each getter is translated as a function of the guard outcome
`ctxOk` and the backend's parameter replies; its output records the value
returned, the `al*` query calls performed, and whether an error was
logged. -/

/-- Outcome of one public operation: returned value, the backend query
calls it performed, and whether the guard logged an error. -/
structure OpResult (α : Type) where
  ret : α
  alCalls : List String
  logged : Bool
deriving DecidableEq, Repr

/-- Backend replies to the per-source parameter queries. -/
structure ALReplies where
  sourceState : Int
  looping : Int
  relative : Int
  gain : Rat
  minGain : Rat
  maxGain : Rat
  pitch : Rat
  position : Rat × Rat × Rat
  direction : Rat × Rat × Rat
  maxDistance : Rat
  referenceDistance : Rat
  rolloffFactor : Rat
deriving DecidableEq, Repr

/-- `Music::get_state` (src/ears/music.rs lines 267-280):
`check_openal_context!(Initial)`, then map the `alGetState` reply; `none`
in the returned value models `unreachable!()`. -/
def Music.get_state (ctxOk : Bool) (r : ALReplies) : OpResult (Option State) :=
  if ctxOk then ⟨state_of_al r.sourceState, ["alGetState"], false⟩
  else ⟨some State.Initial, [], true⟩

/-- `Music::get_volume` (lines 304-310): `check_openal_context!(0.)`. -/
def Music.get_volume (ctxOk : Bool) (r : ALReplies) : OpResult Rat :=
  if ctxOk then ⟨r.gain, ["alGetSourcef AL_GAIN"], false⟩
  else ⟨0, [], true⟩

/-- `Music::get_min_volume` (lines 333-339): `check_openal_context!(0.)`. -/
def Music.get_min_volume (ctxOk : Bool) (r : ALReplies) : OpResult Rat :=
  if ctxOk then ⟨r.minGain, ["alGetSourcef AL_MIN_GAIN"], false⟩
  else ⟨0, [], true⟩

/-- `Music::get_max_volume` (lines 362-368): `check_openal_context!(0.)`. -/
def Music.get_max_volume (ctxOk : Bool) (r : ALReplies) : OpResult Rat :=
  if ctxOk then ⟨r.maxGain, ["alGetSourcef AL_MAX_GAIN"], false⟩
  else ⟨0, [], true⟩

/-- `Music::is_looping` (lines 393-403): `check_openal_context!(false)`,
then match the truncated `alGetSourcei(AL_LOOPING)` reply; `none` in the
returned value models `unreachable!()`. -/
def Music.is_looping (ctxOk : Bool) (r : ALReplies) : OpResult (Option Bool) :=
  if ctxOk then ⟨bool_of_al r.looping, ["alGetSourcei AL_LOOPING"], false⟩
  else ⟨some false, [], true⟩

/-- `Music::get_pitch` (lines 427-433): `check_openal_context!(0.)`. -/
def Music.get_pitch (ctxOk : Bool) (r : ALReplies) : OpResult Rat :=
  if ctxOk then ⟨r.pitch, ["alGetSourcef AL_PITCH"], false⟩
  else ⟨0, [], true⟩

/-- `Music::is_relative` (lines 458-468): `check_openal_context!(false)`,
then match the truncated `alGetSourcei(AL_SOURCE_RELATIVE)` reply. -/
def Music.is_relative (ctxOk : Bool) (r : ALReplies) : OpResult (Option Bool) :=
  if ctxOk then ⟨bool_of_al r.relative, ["alGetSourcei AL_SOURCE_RELATIVE"], false⟩
  else ⟨some false, [], true⟩

/-- `Music::get_position` (lines 496-502): `check_openal_context!([0., ..3])`. -/
def Music.get_position (ctxOk : Bool) (r : ALReplies) :
    OpResult (Rat × Rat × Rat) :=
  if ctxOk then ⟨r.position, ["alGetSourcefv AL_POSITION"], false⟩
  else ⟨(0, 0, 0), [], true⟩

/-- `Music::get_direction` (lines 526-532): `check_openal_context!([0., ..3])`. -/
def Music.get_direction (ctxOk : Bool) (r : ALReplies) :
    OpResult (Rat × Rat × Rat) :=
  if ctxOk then ⟨r.direction, ["alGetSourcefv AL_DIRECTION"], false⟩
  else ⟨(0, 0, 0), [], true⟩

/-- `Music::get_max_distance` (lines 558-564): `check_openal_context!(0.)`. -/
def Music.get_max_distance (ctxOk : Bool) (r : ALReplies) : OpResult Rat :=
  if ctxOk then ⟨r.maxDistance, ["alGetSourcef AL_MAX_DISTANCE"], false⟩
  else ⟨0, [], true⟩

/-- `Music::get_reference_distance` (lines 589-595):
`check_openal_context!(1.)` — the guard default here is 1, not 0. -/
def Music.get_reference_distance (ctxOk : Bool) (r : ALReplies) : OpResult Rat :=
  if ctxOk then ⟨r.referenceDistance, ["alGetSourcef AL_REFERENCE_DISTANCE"], false⟩
  else ⟨1, [], true⟩

/-- `Music::get_attenuation` (lines 620-626): `check_openal_context!(1.)`
— the guard default here is 1, not 0. -/
def Music.get_attenuation (ctxOk : Bool) (r : ALReplies) : OpResult Rat :=
  if ctxOk then ⟨r.rolloffFactor, ["alGetSourcef AL_ROLLOFF_FACTOR"], false⟩
  else ⟨1, [], true⟩

/-- `Sound::get_state` (src/sound.rs lines 305-320): same guard default
and the same four-constant match as `Music::get_state`. -/
def Sound.get_state (ctxOk : Bool) (r : ALReplies) : OpResult (Option State) :=
  if ctxOk then ⟨state_of_al r.sourceState, ["alGetSourcei AL_SOURCE_STATE"], false⟩
  else ⟨some State.Initial, [], true⟩

/-- `Sound::is_looping` (src/sound.rs lines 439-450): guard default
`false`, then match `boolean as i8` against `ALC_TRUE` / `ALC_FALSE` with
`_ => unreachable!()`. -/
def Sound.is_looping (ctxOk : Bool) (r : ALReplies) : OpResult (Option Bool) :=
  if ctxOk then ⟨bool_of_al r.looping, ["alGetSourcei AL_LOOPING"], false⟩
  else ⟨some false, [], true⟩

/-! ## `Recorder::save_to_file` (src/recorder.rs lines 148-173)

The recorder's accumulated samples live in `self.samples`; writing goes
through `SndFile::new_with_info(file_ext, Write, infos)` followed by
`write_i16` and `close`.  `writeOk` is whether opening the file for
writing succeeds; the written file (path, header info, sample data) is
returned so theorems can inspect the persisted layout.  The final
`RecorderS` is the receiver's state after the call. -/

/-- The `SndInfo` header passed to `SndFile::new_with_info`. -/
structure SndInfoS where
  frames : Int
  samplerate : Int
  channels : Int
  format : Nat
deriving DecidableEq, Repr

/-- A file written through libsndfile: its path, header and sample data. -/
structure WavFileS where
  path : String
  info : SndInfoS
  data : List Int
deriving DecidableEq, Repr

/-- The `Recorder` state the embedding tracks: the accumulated samples. -/
structure RecorderS where
  samples : List Int
deriving DecidableEq, Repr

/-- Translation of `Recorder::save_to_file(&mut self, filename)`:
returns the `bool` result, the file written (if any) and the receiver's
state after the call. -/
def Recorder.save_to_file (rec : RecorderS) (filename : String)
    (writeOk : Bool) : Bool × Option WavFileS × RecorderS :=
  if rec.samples.length = 0 then (false, Option.none, rec)
  else
    let infos : SndInfoS :=
      ⟨rec.samples.length, 44100, 1, FormatPcm16 ||| FormatWav⟩
    let file_ext := filename ++ ".wav"
    if writeOk then
      (true, some ⟨file_ext, infos, rec.samples⟩, rec)
    else
      (false, Option.none, rec)

/-! # Theorems -/

/-- C1 counterexample: on a tick where the voice state is Playing and the
backend reports 2 processed buffers, the refill loop unqueues (and
refills) only 1 buffer, not 2 — the claim that all processed buffers are
refilled on the tick that reports them is false. -/
theorem refill_tick_not_all_processed :
    ¬ buffersUnqueued (process_music_tick AL_PLAYING 2 7 50000) = 2 := by
  decide

/-- C1 (amended): on every tick where the voice state is Playing, the
refill loop queries the processed count and, when it is nonzero, unqueues
exactly one buffer, reads the next chunk from the decode source,
re-uploads it into that same buffer id and re-queues that buffer — at
most one buffer is refilled per tick, regardless of the processed count
reported. -/
theorem refill_tick_one_buffer (n : Int) (buf : Nat) :
    buffersUnqueued (process_music_tick AL_PLAYING n buf 50000) =
      (if n = 0 then 0 else 1)
  ∧ buffersQueued (process_music_tick AL_PLAYING n buf 50000) =
      (if n = 0 then 0 else 1)
  ∧ chunkReads (process_music_tick AL_PLAYING n buf 50000) =
      (if n = 0 then 0 else 1)
  ∧ buffersUnqueued (process_music_tick AL_PLAYING n buf 50000) ≤ 1
  ∧ (n ≠ 0 →
      ALEvent.bufferData buf ∈ process_music_tick AL_PLAYING n buf 50000
    ∧ ALEvent.queueBuffers 1 buf ∈ process_music_tick AL_PLAYING n buf 50000) := by
  by_cases h : n = 0 <;>
    simp [process_music_tick, buffersUnqueued, buffersQueued, chunkReads, h]

/-- C1 witness: the amended tick behaviour at processed count 2 and
backend-returned buffer id 7. -/
theorem refill_tick_one_buffer_witness :
    buffersUnqueued (process_music_tick AL_PLAYING 2 7 50000) = 1
  ∧ ALEvent.bufferData 7 ∈ process_music_tick AL_PLAYING 2 7 50000
  ∧ ALEvent.queueBuffers 1 7 ∈ process_music_tick AL_PLAYING 2 7 50000 := by
  have h := refill_tick_one_buffer 2 7
  exact ⟨by simpa using h.1, (h.2.2.2.2 (by decide)).1, (h.2.2.2.2 (by decide)).2⟩

/-- C2: evaluating `Music::new` on its partial-construction failure
paths.  With the context up and the file readable but reporting 3
channels, the format mapping fails after `alGenSources(1)` and
`alGenBuffers(2)`: construction returns no object, yet the generated
source and both buffers are never deleted — they leak.  The same happens
when the backend reports an error code after creation (here: 2 channels,
`openal_has_error` returning an error). -/
theorem music_new_partial_failure_leaks :
    ((Music.new true true 3 false).1 = Option.none
      ∧ (Music.new true true 3 false).2.sourcesGenned = 1
      ∧ (Music.new true true 3 false).2.buffersGenned = 2
      ∧ (Music.new true true 3 false).2.sourcesDeleted = 0
      ∧ (Music.new true true 3 false).2.buffersDeleted = 0
      ∧ (Music.new true true 3 false).2.leakedSources = 1
      ∧ (Music.new true true 3 false).2.leakedBuffers = 2)
  ∧ ((Music.new true true 2 true).1 = Option.none
      ∧ (Music.new true true 2 true).2.leakedSources = 1
      ∧ (Music.new true true 2 true).2.leakedBuffers = 2) := by
  decide

/-- C6: the channel-count-to-format mapping succeeds exactly on
{1,2,4,5,6,7}; for a count outside the set, the preloaded store
(`SoundData::new`) fails before creating any backend resource, but the
streaming engine (`Music::new`) fails only after generating its source
and two buffers and leaks them — construction does not fail cleanly. -/
theorem channels_format_and_clean_failure :
    (∀ c : Int, (get_channels_format c).isSome ↔
        (c = 1 ∨ c = 2 ∨ c = 4 ∨ c = 5 ∨ c = 6 ∨ c = 7))
  ∧ ((SoundData.new true 3 false).1 = Option.none
      ∧ (SoundData.new true 3 false).2 = BackendRes.none)
  ∧ ((Music.new true true 3 false).1 = Option.none
      ∧ (Music.new true true 3 false).2.leakedBuffers ≠ 0
      ∧ (Music.new true true 3 false).2.leakedSources ≠ 0) := by
  refine ⟨?_, by decide, by decide⟩
  intro c
  unfold get_channels_format
  split_ifs <;> simp_all

/-- C3: `Music::play` resumes in place from Paused — its whole backend
trace is the state query plus exactly one `alSourcePlay`, with no buffer
fill, queue, unqueue or seek; from Playing it stops the voice and sleeps
50 ms before seeking the decode source to frame 0 and restarting
streaming (fill both buffers, queue them, start the voice, spawn the
refill loop); from Initial or Stopped it seeks and restarts streaming
without the stop/grace-delay. -/
theorem music_play_paused_resumes_else_restarts
    (stReply : Int) (b0 b1 : Nat) :
    (stReply = AL_PAUSED →
        Music.play true stReply b0 b1 50000 =
          some [ALEvent.getState, ALEvent.sourcePlay]
      ∧ sourcePlays [ALEvent.getState, ALEvent.sourcePlay] = 1
      ∧ buffersQueued [ALEvent.getState, ALEvent.sourcePlay] = 0
      ∧ buffersUnqueued [ALEvent.getState, ALEvent.sourcePlay] = 0
      ∧ chunkReads [ALEvent.getState, ALEvent.sourcePlay] = 0
      ∧ ALEvent.seek 0 ∉ [ALEvent.getState, ALEvent.sourcePlay])
  ∧ (stReply = AL_PLAYING →
        Music.play true stReply b0 b1 50000 =
          some ([ALEvent.getState, ALEvent.getState,
                 ALEvent.sourceStop, ALEvent.sleepMs 50, ALEvent.seek 0] ++
                process_music_sync b0 b1 50000))
  ∧ ((stReply = AL_INITIAL ∨ stReply = AL_STOPPED) →
        Music.play true stReply b0 b1 50000 =
          some ([ALEvent.getState, ALEvent.getState, ALEvent.seek 0] ++
                process_music_sync b0 b1 50000)) := by
  refine ⟨fun h => ?_, fun h => ?_, fun h => ?_⟩
  · subst h
    refine ⟨?_, by decide, by decide, by decide, by decide, by decide⟩
    simp [Music.play, state_of_al, AL_PAUSED, AL_INITIAL, AL_PLAYING]
  · subst h
    simp [Music.play, state_of_al, AL_PLAYING, AL_INITIAL]
  · rcases h with h | h <;> subst h <;>
      simp [Music.play, state_of_al, AL_INITIAL, AL_PLAYING, AL_PAUSED,
            AL_STOPPED, State.Playing]

/-- C3 witness: the play traces at the concrete backend state replies
`AL_PAUSED` and `AL_PLAYING`, with buffer ids 4 and 5. -/
theorem music_play_paused_resumes_else_restarts_witness :
    Music.play true AL_PAUSED 4 5 50000 =
      some [ALEvent.getState, ALEvent.sourcePlay]
  ∧ Music.play true AL_PLAYING 4 5 50000 =
      some ([ALEvent.getState, ALEvent.getState,
             ALEvent.sourceStop, ALEvent.sleepMs 50, ALEvent.seek 0] ++
            process_music_sync 4 5 50000)
  ∧ Music.play true AL_STOPPED 4 5 50000 =
      some ([ALEvent.getState, ALEvent.getState, ALEvent.seek 0] ++
            process_music_sync 4 5 50000) :=
  ⟨((music_play_paused_resumes_else_restarts AL_PAUSED 4 5).1 rfl).1,
   (music_play_paused_resumes_else_restarts AL_PLAYING 4 5).2.1 rfl,
   (music_play_paused_resumes_else_restarts AL_STOPPED 4 5).2.2 (Or.inr rfl)⟩

/-- Helper: `check_al_context` is a successful no-op whenever a context
is already current globally or already stored in this scope's slot. -/
theorem check_al_context_noop_of_present (b : CtxBackend) (w : CtxWorld)
    (h : w.currentContext.isSome ∨ w.scopeData.isSome) :
    check_al_context b w = (Except.ok (), w) := by
  unfold check_al_context
  rcases h with h | h
  · simp [h]
  · rcases hs : w.scopeData with _ | d
    · rw [hs] at h; simp at h
    · simp [hs]

/-- Helper: after any successful `check_al_context`, the resulting world
has a globally current context or a filled scope slot. -/
theorem check_al_context_success_present (b : CtxBackend) (w : CtxWorld)
    (h : (check_al_context b w).1 = Except.ok ()) :
    (check_al_context b w).2.currentContext.isSome
      ∨ (check_al_context b w).2.scopeData.isSome := by
  unfold check_al_context at *
  by_cases hc : w.currentContext.isSome
  · simp [hc]
  · rcases hs : w.scopeData with _ | d
    · simp only [hc, hs] at h ⊢
      rcases hn : OpenAlData.new b w with ⟨res, w1⟩
      rcases res with e | d
      · simp [hn] at h
      · simp [hn]
    · simp [hc, hs]

/-- C4: `check_al_context` is idempotent.  When a context is already
current globally or already stored in the scope's task-local slot, the
call succeeds without touching the backend (the world, including the
opened-device and created-context counters, is unchanged).  On a first
call in a fresh scope with a cooperative backend it opens exactly one
device, creates exactly one context, makes it current and stores the
`OpenAlData` in the scope slot.  And after any successful call, calling
again is a successful no-op. -/
theorem check_al_context_idempotent (b : CtxBackend) (w : CtxWorld) :
    (w.currentContext.isSome ∨ w.scopeData.isSome →
        check_al_context b w = (Except.ok (), w))
  ∧ (w.currentContext = Option.none → w.scopeData = Option.none →
      b.deviceAvailable = true → b.contextCreateOk = true →
      b.makeCurrentOk = true →
        check_al_context b w =
          (Except.ok (),
           { currentContext := some (w.contextsCreated + 1),
             scopeData := some ⟨w.contextsCreated + 1, w.devicesOpened + 1,
                               Option.none⟩,
             devicesOpened := w.devicesOpened + 1,
             contextsCreated := w.contextsCreated + 1 }))
  ∧ ((check_al_context b w).1 = Except.ok () →
        check_al_context b ((check_al_context b w).2) =
          (Except.ok (), (check_al_context b w).2)) := by
  refine ⟨check_al_context_noop_of_present b w, fun hc hs hd hcr hm => ?_,
          fun h => ?_⟩
  · simp [check_al_context, OpenAlData.new, hc, hs, hd, hcr, hm]
  · exact check_al_context_noop_of_present b _
      (check_al_context_success_present b w h)

/-- C4 witness: with a context already current globally the call is a
no-op; from an empty world with a cooperative backend the first call
opens one device, creates one context and stores it. -/
theorem check_al_context_idempotent_witness :
    check_al_context ⟨true, true, true, true, true⟩
        ⟨some 9, Option.none, 1, 1⟩ =
      (Except.ok (), ⟨some 9, Option.none, 1, 1⟩)
  ∧ check_al_context ⟨true, true, true, true, true⟩
        ⟨Option.none, Option.none, 0, 0⟩ =
      (Except.ok (), ⟨some 1, some ⟨1, 1, Option.none⟩, 1, 1⟩) :=
  ⟨(check_al_context_idempotent ⟨true, true, true, true, true⟩
      ⟨some 9, Option.none, 1, 1⟩).1 (Or.inl rfl),
   (check_al_context_idempotent ⟨true, true, true, true, true⟩
      ⟨Option.none, Option.none, 0, 0⟩).2.1 rfl rfl rfl rfl rfl⟩

/-- Helper: whenever `is_input_context_init` returns a capture handle,
the resulting world's scope slot holds the base context data. -/
theorem is_input_context_init_ok_scope (b : CtxBackend) (w : CtxWorld)
    (cap : Nat) (w2 : CtxWorld)
    (h : is_input_context_init b w = (Except.ok cap, w2)) :
    w2.scopeData.isSome := by
  unfold is_input_context_init at h
  rcases hs : w.scopeData with _ | d
  · rw [hs] at h; simp at h
  · rw [hs] at h
    dsimp only at h
    rcases hcap : d.al_capt_device with _ | cdev
    · rw [hcap] at h
      dsimp only at h
      cases hext : b.captureExtPresent
      · simp [hext] at h
      · cases hopen : b.captureOpenOk
        · simp [hext, hopen] at h
        · simp only [hext, hopen] at h
          rw [if_neg (by simp), if_neg (by simp), Prod.mk.injEq] at h
          obtain ⟨-, h2⟩ := h
          subst h2
          simp
    · rw [hcap] at h
      dsimp only at h
      rw [Prod.mk.injEq] at h
      obtain ⟨-, h2⟩ := h
      subst h2
      simp [hs]

/-- C5: requesting the input (capture) context from a scope whose
task-local slot does not hold the base context, while a context created
by another scope is globally current, fails with the scope-violation
error message and leaves the world untouched; and a capture handle is
only ever produced when the requesting scope's slot holds the base
context. -/
theorem input_context_requires_same_scope (b : CtxBackend) (w : CtxWorld) :
    (w.scopeData = Option.none → w.currentContext.isSome →
        check_al_input_context b w =
          (Except.error "Error: you must request the input context, in the task where you initialize ears.", w))
  ∧ (∀ cap w2, check_al_input_context b w = (Except.ok cap, w2) →
        w2.scopeData.isSome) := by
  constructor
  · intro hs hc
    simp [check_al_input_context, is_input_context_init, hc, hs]
  · intro cap w2 h
    unfold check_al_input_context at h
    by_cases hc : w.currentContext.isSome
    · rw [if_pos hc] at h
      exact is_input_context_init_ok_scope b w cap w2 h
    · rw [if_neg hc] at h
      rcases hca : check_al_context b w with ⟨res, w1⟩
      rw [hca] at h
      rcases res with e | u
      · simp at h
      · exact is_input_context_init_ok_scope b w1 cap w2 h

/-- C5 witness: scope B (empty task-local slot) requesting the capture
context while scope A's context (id 3) is globally current fails with
the scope-violation error. -/
theorem input_context_requires_same_scope_witness :
    check_al_input_context ⟨true, true, true, true, true⟩
        ⟨some 3, Option.none, 1, 1⟩ =
      (Except.error "Error: you must request the input context, in the task where you initialize ears.",
       ⟨some 3, Option.none, 1, 1⟩) :=
  (input_context_requires_same_scope ⟨true, true, true, true, true⟩
      ⟨some 3, Option.none, 1, 1⟩).1 rfl rfl

/-- C7 counterexample: `Music::get_attenuation` on a failed context check
returns 1, not 0 — the claim that every scalar getter returns 0.0 on
guard failure is false (the guard default of `get_attenuation` is
`check_openal_context!(1.)`). -/
theorem get_attenuation_guard_default_one :
    (Music.get_attenuation false
        ⟨0, 0, 0, 0, 0, 0, 0, (0, 0, 0), (0, 0, 0), 0, 0, 0⟩).ret = 1
  ∧ (1 : Rat) ≠ 0 := by
  exact ⟨rfl, by norm_num⟩

/-- C7 (amended): every public operation on a live `Music` first runs the
context-check guard; when the check fails the operation performs no
backend call, logs the error, and returns the safe default for its type:
`false` for the boolean queries, `Initial` for the state query, the zero
vector for 3-vectors, and for scalars the getter's own default — 0 for
volume, min/max volume, pitch and max distance, but 1 for reference
distance and attenuation.  The transport controls (`play`, `pause`,
`stop`) likewise issue no backend command. -/
theorem guard_failure_returns_defaults (r : ALReplies) :
    Music.get_state false r = ⟨some State.Initial, [], true⟩
  ∧ Music.get_volume false r = ⟨0, [], true⟩
  ∧ Music.get_min_volume false r = ⟨0, [], true⟩
  ∧ Music.get_max_volume false r = ⟨0, [], true⟩
  ∧ Music.is_looping false r = ⟨some false, [], true⟩
  ∧ Music.get_pitch false r = ⟨0, [], true⟩
  ∧ Music.is_relative false r = ⟨some false, [], true⟩
  ∧ Music.get_position false r = ⟨(0, 0, 0), [], true⟩
  ∧ Music.get_direction false r = ⟨(0, 0, 0), [], true⟩
  ∧ Music.get_max_distance false r = ⟨0, [], true⟩
  ∧ Music.get_reference_distance false r = ⟨1, [], true⟩
  ∧ Music.get_attenuation false r = ⟨1, [], true⟩
  ∧ Sound.get_state false r = ⟨some State.Initial, [], true⟩
  ∧ Sound.is_looping false r = ⟨some false, [], true⟩
  ∧ Music.play false 0 0 0 50000 = some []
  ∧ Music.pause false = []
  ∧ Music.stop false = [] := by
  exact ⟨rfl, rfl, rfl, rfl, rfl, rfl, rfl, rfl, rfl, rfl, rfl, rfl, rfl,
         rfl, rfl, rfl, rfl⟩

/-- C8: `Recorder::save_to_file` returns `false` and writes no file when
the accumulated sample vector is empty; with at least one accumulated
sample and a writable target it writes the accumulator as a
single-channel, 44100 Hz, 16-bit PCM WAV file at the caller-given path
with `".wav"` appended, and returns `true`. -/
theorem save_to_file_empty_or_wav (rec : RecorderS) (filename : String)
    (writeOk : Bool) :
    (rec.samples = [] →
        Recorder.save_to_file rec filename writeOk =
          (false, Option.none, rec))
  ∧ (rec.samples ≠ [] → writeOk = true →
      ∃ f, Recorder.save_to_file rec filename writeOk = (true, some f, rec)
        ∧ f.path = filename ++ ".wav"
        ∧ f.info.channels = 1
        ∧ f.info.samplerate = 44100
        ∧ f.info.format = (FormatPcm16 ||| FormatWav)
        ∧ f.info.frames = rec.samples.length
        ∧ f.data = rec.samples) := by
  constructor
  · intro h
    simp [Recorder.save_to_file, h]
  · intro h hw
    refine ⟨⟨filename ++ ".wav",
             ⟨rec.samples.length, 44100, 1, FormatPcm16 ||| FormatWav⟩,
             rec.samples⟩, ?_, rfl, rfl, rfl, rfl, rfl, rfl⟩
    have hlen : ¬ rec.samples.length = 0 := by
      simpa [List.length_eq_zero] using h
    simp [Recorder.save_to_file, hlen, hw]

/-- C8 witness: an empty accumulator yields `false` and no file; the
accumulator `[1, 2, 3]` is written as `rec.wav`, mono, 44100 Hz, PCM16
WAV, and the call returns `true`. -/
theorem save_to_file_empty_or_wav_witness :
    Recorder.save_to_file ⟨[]⟩ "rec" true = (false, Option.none, ⟨[]⟩)
  ∧ ∃ f, Recorder.save_to_file ⟨[1, 2, 3]⟩ "rec" true = (true, some f, ⟨[1, 2, 3]⟩)
      ∧ f.path = "rec" ++ ".wav"
      ∧ f.info.channels = 1
      ∧ f.info.samplerate = 44100
      ∧ f.info.format = (FormatPcm16 ||| FormatWav)
      ∧ f.info.frames = ([1, 2, 3] : List Int).length
      ∧ f.data = [1, 2, 3] :=
  ⟨(save_to_file_empty_or_wav ⟨[]⟩ "rec" true).1 rfl,
   (save_to_file_empty_or_wav ⟨[1, 2, 3]⟩ "rec" true).2 (by simp) rfl⟩

/-- C9 counterexample: the backend reply 256 to the `AL_LOOPING` query is
outside the expected set {`ALC_TRUE` = 1, `ALC_FALSE` = 0}, yet
`Sound::is_looping` does not hit `unreachable!()`: the `boolean as i8`
truncation maps 256 to 0, so the call returns `false`. -/
theorem is_looping_reply_256_returns_false :
    (256 : Int) ≠ ALC_TRUE
  ∧ (256 : Int) ≠ ALC_FALSE
  ∧ (Sound.is_looping true
      ⟨0, 256, 0, 0, 0, 0, 0, (0, 0, 0), (0, 0, 0), 0, 0, 0⟩).ret
        = some false := by
  refine ⟨by decide, by decide, ?_⟩
  rfl

/-- C9 (amended): the reply-to-result mappings are partial, not total.
`get_state` (`Music` and `Sound`) reaches `unreachable!()` exactly on
replies outside the four AL state constants; the boolean queries
(`is_looping`, `is_relative`) first truncate the reply to an `i8` and
reach `unreachable!()` exactly when the truncated value is neither
`ALC_TRUE` nor `ALC_FALSE` — so a reply such as 2 panics, while replies
congruent to 0 or 1 modulo 256 (such as 256) return a `bool`. -/
theorem reply_mapping_partiality (s bval : Int) (r : ALReplies) :
    (state_of_al s = Option.none ↔
        ¬(s = AL_INITIAL ∨ s = AL_PLAYING ∨ s = AL_PAUSED ∨ s = AL_STOPPED))
  ∧ (bool_of_al bval = Option.none ↔
        ¬(i8_of_i32 bval = ALC_TRUE ∨ i8_of_i32 bval = ALC_FALSE))
  ∧ (Music.get_state true r).ret = state_of_al r.sourceState
  ∧ (Sound.get_state true r).ret = state_of_al r.sourceState
  ∧ (Sound.is_looping true r).ret = bool_of_al r.looping
  ∧ (Music.is_looping true r).ret = bool_of_al r.looping
  ∧ (Music.is_relative true r).ret = bool_of_al r.relative
  ∧ bool_of_al 2 = Option.none
  ∧ state_of_al 2 = Option.none := by
  refine ⟨?_, ?_, rfl, rfl, rfl, rfl, rfl, by decide, by decide⟩
  · unfold state_of_al
    split_ifs <;> simp_all
  · unfold bool_of_al
    split_ifs <;> simp_all

/-- C10: `Recorder::save_to_file` leaves the accumulated sample vector
unchanged, and calling it again on the resulting state (with the same
target writability) produces the identical result — including a file
with the same sample content. -/
theorem save_to_file_preserves_samples (rec : RecorderS) (filename : String)
    (writeOk : Bool) :
    (Recorder.save_to_file rec filename writeOk).2.2 = rec
  ∧ Recorder.save_to_file
      ((Recorder.save_to_file rec filename writeOk).2.2) filename writeOk
      = Recorder.save_to_file rec filename writeOk := by
  have h1 : (Recorder.save_to_file rec filename writeOk).2.2 = rec := by
    unfold Recorder.save_to_file
    split_ifs <;> rfl
  exact ⟨h1, by rw [h1]⟩

end Ears
